import Mathlib

/-!
Verification of the AEC3 state-tracking core (aec_state.cc).

The stateful decision engine of the acoustic echo canceller is embedded
shallowly: each sub-tracker becomes a structure holding its member fields
and a pure update function translated line by line from the source.
Machine floats are modelled by exact rationals; all integer counters are
natural numbers.  The domain constants kNumBlocksPerSecond, kBlockSize and
kFftLengthBy2 live in a header outside the given source, so they are kept
as configuration parameters, matching the symbolic thresholds of the
specification.  External collaborators (filter analyzers, ERL and ERLE
estimators, subtractor-output analyzers, the reverberation model) are out
of scope for the core; they are modelled from the specification as
interface-event records, and the per-block quantities they report are
inputs of the orchestrator step.
-/

namespace Aec3

/-- Sentinel from aec_state.cc: blocks since a converged filter, meaning never. -/
def kBlocksSinceConvergencedFilterInit : ℕ := 10000

/-- Sentinel from aec_state.cc: blocks since a consistent estimate, meaning never. -/
def kBlocksSinceConsistentEstimateInit : ℕ := 10000

/-- Modelled from the spec: the configuration options read by the core
(EchoCanceller3Config) together with the domain constants that live in
aec3_common.h outside the given source: the block rate, the block size in
samples and the half FFT length used by the active-render energy test. -/
structure Config where
  numBlocksPerSecond : ℕ
  blockSize : ℕ
  fftLengthBy2 : ℕ
  conservative_initial_phase : Bool
  initial_state_seconds : ℚ
  use_linear_filter : Bool
  delay_headroom_samples : ℕ
  bounded_erl : Bool
  linear_and_stable_echo_path : Bool
  use_stationarity_properties : Bool
  active_render_limit : ℚ
deriving Repr, DecidableEq

/-- State of AecState::InitialState (member fields of the nested class). -/
structure InitialState where
  initial_state : Bool
  strong_not_saturated_render_blocks : ℕ
  transition_triggered : Bool
deriving Repr, DecidableEq

/-- AecState::InitialState::Reset from aec_state.cc. -/
def InitialState.reset (s : InitialState) : InitialState :=
  { s with initial_state := true, strong_not_saturated_render_blocks := 0 }

/-- AecState::InitialState::Update from aec_state.cc. -/
def InitialState.update (cfg : Config) (s : InitialState)
    (active_render saturated_capture : Bool) : InitialState :=
  let strong := s.strong_not_saturated_render_blocks +
      (if active_render && !saturated_capture then 1 else 0)
  let prev_initial_state := s.initial_state
  let init : Bool :=
    if cfg.conservative_initial_phase then
      decide (strong < 5 * cfg.numBlocksPerSecond)
    else
      decide ((strong : ℚ) < cfg.initial_state_seconds * cfg.numBlocksPerSecond)
  { initial_state := init
    strong_not_saturated_render_blocks := strong
    transition_triggered := !init && prev_initial_state }

/-- Run a sequence of InitialState updates; each input is the pair of the
active-render and saturated-capture flags for one block. -/
def InitialState.run (cfg : Config) (s : InitialState)
    (l : List (Bool × Bool)) : InitialState :=
  l.foldl (fun s p => InitialState.update cfg s p.1 p.2) s

/-- Number of blocks of a block sequence with active render and
unsaturated capture, the blocks on which the InitialState counter advances. -/
def filterUpdateCount (l : List (Bool × Bool)) : ℕ :=
  (l.filter (fun p => p.1 && !p.2)).length

/-- The startup threshold of InitialState, in blocks, as a rational. -/
def InitialState.threshold (cfg : Config) : ℚ :=
  if cfg.conservative_initial_phase then (5 * cfg.numBlocksPerSecond : ℕ)
  else cfg.initial_state_seconds * cfg.numBlocksPerSecond

/-- State of AecState::FilterDelay.  The external delay is represented by
its block value, the only part of DelayEstimate the source compares. -/
structure FilterDelay where
  external_delay : Option ℕ
  external_delay_reported : Bool
  filter_delay_blocks : ℕ
deriving Repr, DecidableEq

/-- AecState::FilterDelay::Update from aec_state.cc.  The per-channel
filter analyzers are out of scope; the list argument carries the values
their DelayBlocks query reports for this block. -/
def FilterDelay.update (cfg : Config) (s : FilterDelay)
    (delay_blocks_per_channel : List ℕ) (external_delay : Option ℕ)
    (blocks_with_proper_filter_adaptation : ℕ) : FilterDelay :=
  let latch : Bool :=
    match external_delay, s.external_delay with
    | some _, none => true
    | some d, some e => decide (d ≠ e)
    | none, _ => false
  let s1 := if latch then
      { s with external_delay := external_delay, external_delay_reported := true }
    else s
  let delay_estimator_may_not_have_converged : Bool :=
    decide (blocks_with_proper_filter_adaptation < 2 * cfg.numBlocksPerSecond)
  let fdb :=
    if delay_estimator_may_not_have_converged && s1.external_delay.isSome then
      cfg.delay_headroom_samples / cfg.blockSize
    else
      delay_blocks_per_channel.tail.foldl Nat.min (delay_blocks_per_channel.headD 0)
  { s1 with filter_delay_blocks := fdb }

/-- State of AecState::TransparentMode (member fields of the nested class). -/
structure TransparentMode where
  capture_block_counter : ℕ
  strong_not_saturated_render_blocks : ℕ
  sane_filter_observed : Bool
  active_blocks_since_sane_filter : ℕ
  non_converged_sequence_size : ℕ
  diverged_sequence_size : ℕ
  active_non_converged_sequence_size : ℕ
  num_converged_blocks : ℕ
  recent_convergence_during_activity : Bool
  finite_erl_recently_detected : Bool
  transparency_activated : Bool
deriving Repr, DecidableEq

/-- AecState::TransparentMode::Reset from aec_state.cc. -/
def TransparentMode.reset (cfg : Config) (s : TransparentMode) : TransparentMode :=
  { s with
    non_converged_sequence_size := kBlocksSinceConvergencedFilterInit
    diverged_sequence_size := 0
    strong_not_saturated_render_blocks := 0
    recent_convergence_during_activity :=
      if cfg.linear_and_stable_echo_path then false
      else s.recent_convergence_during_activity }

/-- AecState::TransparentMode::Update from aec_state.cc. -/
def TransparentMode.update (cfg : Config) (s : TransparentMode)
    (filter_delay_blocks : ℕ) (any_filter_consistent any_filter_converged
    all_filters_diverged active_render saturated_capture : Bool) : TransparentMode :=
  let capture_block_counter := s.capture_block_counter + 1
  let strong_not_saturated_render_blocks :=
    s.strong_not_saturated_render_blocks +
      (if active_render && !saturated_capture then 1 else 0)
  let sane_hit := any_filter_consistent && decide (filter_delay_blocks < 5)
  let sane_filter_observed := if sane_hit then true else s.sane_filter_observed
  let active_blocks_since_sane_filter :=
    if sane_hit then 0
    else if active_render then s.active_blocks_since_sane_filter + 1
    else s.active_blocks_since_sane_filter
  let sane_filter_recently_seen : Bool :=
    if !sane_filter_observed then
      decide (capture_block_counter ≤ 5 * cfg.numBlocksPerSecond)
    else
      decide (active_blocks_since_sane_filter ≤ 30 * cfg.numBlocksPerSecond)
  let active_non_converged_sequence_size :=
    if any_filter_converged then 0
    else if active_render then s.active_non_converged_sequence_size + 1
    else s.active_non_converged_sequence_size
  let recent1 :=
    if any_filter_converged then true
    else if active_render &&
        decide (60 * cfg.numBlocksPerSecond < active_non_converged_sequence_size)
      then false
    else s.recent_convergence_during_activity
  let non_converged1 :=
    if any_filter_converged then 0 else s.non_converged_sequence_size + 1
  let num_converged_blocks :=
    if any_filter_converged then s.num_converged_blocks + 1
    else if decide (20 * cfg.numBlocksPerSecond < non_converged1) then 0
    else s.num_converged_blocks
  let diverged_sequence_size :=
    if !all_filters_diverged then 0 else s.diverged_sequence_size + 1
  let non_converged_sequence_size :=
    if !all_filters_diverged then non_converged1
    else if decide (60 ≤ diverged_sequence_size) then kBlocksSinceConvergencedFilterInit
    else non_converged1
  let finite1 :=
    if decide (60 * cfg.numBlocksPerSecond < active_non_converged_sequence_size) then false
    else s.finite_erl_recently_detected
  let finite_erl_recently_detected :=
    if decide (50 < num_converged_blocks) then true else finite1
  let transparency_activated :=
    if cfg.bounded_erl then false
    else if finite_erl_recently_detected then false
    else if sane_filter_recently_seen && recent1 then false
    else decide (6 * cfg.numBlocksPerSecond < strong_not_saturated_render_blocks)
  { capture_block_counter
    strong_not_saturated_render_blocks
    sane_filter_observed
    active_blocks_since_sane_filter
    non_converged_sequence_size
    diverged_sequence_size
    active_non_converged_sequence_size
    num_converged_blocks
    recent_convergence_during_activity := recent1
    finite_erl_recently_detected
    transparency_activated }

/-- The local sane_filter_recently_seen flag of TransparentMode::Update,
expressed as a function of the state fields it reads; by the time the
source computes it, those fields already carry their post-update values. -/
def saneFilterRecentlySeen (cfg : Config) (s : TransparentMode) : Bool :=
  if !s.sane_filter_observed then
    decide (s.capture_block_counter ≤ 5 * cfg.numBlocksPerSecond)
  else
    decide (s.active_blocks_since_sane_filter ≤ 30 * cfg.numBlocksPerSecond)

/-- State of AecState::FilteringQualityAnalyzer. -/
structure FilteringQualityAnalyzer where
  usable_linear_estimate : Bool
  filter_update_blocks_since_reset : ℕ
  filter_update_blocks_since_start : ℕ
  convergence_seen : Bool
deriving Repr, DecidableEq

/-- AecState::FilteringQualityAnalyzer::Reset from aec_state.cc. -/
def FilteringQualityAnalyzer.reset (s : FilteringQualityAnalyzer) :
    FilteringQualityAnalyzer :=
  { s with usable_linear_estimate := false, filter_update_blocks_since_reset := 0 }

/-- AecState::FilteringQualityAnalyzer::Update from aec_state.cc. -/
def FilteringQualityAnalyzer.update (cfg : Config) (s : FilteringQualityAnalyzer)
    (active_render transparent_mode saturated_capture : Bool)
    (external_delay : Option ℕ) (any_filter_converged : Bool) :
    FilteringQualityAnalyzer :=
  let filter_update := active_render && !saturated_capture
  let sinceReset := s.filter_update_blocks_since_reset +
      (if filter_update then 1 else 0)
  let sinceStart := s.filter_update_blocks_since_start +
      (if filter_update then 1 else 0)
  let convergence_seen := s.convergence_seen || any_filter_converged
  let sufficient_data_to_converge_at_startup : Bool :=
    decide ((cfg.numBlocksPerSecond : ℚ) * 0.4 < (sinceStart : ℚ))
  let sufficient_data_to_converge_at_reset : Bool :=
    sufficient_data_to_converge_at_startup &&
      decide ((cfg.numBlocksPerSecond : ℚ) * 0.2 < (sinceReset : ℚ))
  let usable0 := sufficient_data_to_converge_at_startup &&
      sufficient_data_to_converge_at_reset
  let usable1 := usable0 && (external_delay.isSome || convergence_seen)
  let usable2 := usable1 && !transparent_mode
  { usable_linear_estimate := usable2
    filter_update_blocks_since_reset := sinceReset
    filter_update_blocks_since_start := sinceStart
    convergence_seen }

/-- Modelled from the spec: the per-channel SubtractorOutput record of the
interface, carrying the peak absolute residual amplitudes of the main and
the shadow adaptive filter. -/
structure SubtractorOutput where
  s_main_max_abs : ℚ
  s_shadow_max_abs : ℚ
deriving Repr, DecidableEq

/-- The maximum absolute render sample across all render channels,
starting the fold at zero as the source loop does. -/
def maxAbsRenderSample (x : List (List ℚ)) : ℚ :=
  x.foldl (fun m ch => ch.foldl (fun m v => max m |v|) m) 0

/-- AecState::SaturationDetector::Update from aec_state.cc; returns the
saturated_echo flag the detector stores. -/
def SaturationDetector.update (x : List (List ℚ)) (saturated_capture : Bool)
    (usable_linear_estimate : Bool) (subtractor_output : List SubtractorOutput)
    (echo_path_gain : ℚ) : Bool :=
  if !saturated_capture then false
  else if usable_linear_estimate then
    subtractor_output.any (fun o =>
      decide (20000 < o.s_main_max_abs) || decide (20000 < o.s_shadow_max_abs))
  else
    decide (32000 < maxAbsRenderSample x * echo_path_gain * 10)

/-- Modelled from the spec: the render spectrum ring buffer, abstracted as
a map from block offsets relative to the read cursor to the per-channel
power spectra stored there; offset d is the slot reached by advancing the
read index by d blocks, and offset d + 1 is the slot one block older.
A per-channel spectrum is a map from frequency bins to power values. -/
structure SpectrumBuffer where
  buffer : ℕ → List (ℕ → ℚ)

/-- Modelled from the spec: the reverberation tail model, holding one
reverberation power value per frequency bin. -/
structure ReverbModel where
  reverb : ℕ → ℚ

/-- Modelled from the spec: the recursive decay update of the tail model
with no frequency shaping; the new block power, scaled, joins the tail and
the whole tail decays by the given coefficient. -/
def ReverbModel.updateReverbNoFreqShaping (m : ReverbModel) (power_spectrum : ℕ → ℚ)
    (power_spectrum_scaling reverb_decay : ℚ) : ReverbModel :=
  ⟨fun k => (m.reverb k + power_spectrum k * power_spectrum_scaling) * reverb_decay⟩

/-- The power of a buffer slot summed across its render channels. -/
def channelSum (slot : List (ℕ → ℚ)) (k : ℕ) : ℚ :=
  (slot.map (fun c => c k)).sum

/-- The sum-across-channels loop of UpdateAndComputeReverb, which adds the
first num_render_channels channels of a slot. -/
def sumChannels (num_render_channels : ℕ) (slot : List (ℕ → ℚ)) (k : ℕ) : ℚ :=
  ((slot.take num_render_channels).map (fun c => c k)).sum

/-- UpdateAndComputeReverb from aec_state.cc: update the tail model with
the slot one block before the delayed slot, then report the delayed slot
power plus the tail power.  Returns the updated model and the combined
echo-power spectrum. -/
def UpdateAndComputeReverb (spectrum_buffer : SpectrumBuffer) (delay_blocks : ℕ)
    (reverb_decay : ℚ) (reverb_model : ReverbModel) : ReverbModel × (ℕ → ℚ) :=
  let num_render_channels := (spectrum_buffer.buffer 0).length
  let idx_at_delay := delay_blocks
  let idx_past := delay_blocks + 1
  if 1 < num_render_channels then
    let rm :=
      reverb_model.updateReverbNoFreqShaping
        (sumChannels num_render_channels (spectrum_buffer.buffer idx_past)) 1 reverb_decay
    let X2 := sumChannels num_render_channels (spectrum_buffer.buffer idx_at_delay)
    (rm, fun k => X2 k + rm.reverb k)
  else
    let rm :=
      reverb_model.updateReverbNoFreqShaping
        ((spectrum_buffer.buffer idx_past).headD (fun _ => 0)) 1 reverb_decay
    let X2 := (spectrum_buffer.buffer idx_at_delay).headD (fun _ => 0)
    (rm, fun k => X2 k + rm.reverb k)

/-- Modelled from the spec: a per-channel filter analyzer, recorded by the
interface events the core sends it. -/
structure FilterAnalyzerM where
  resets : ℕ
  updates : ℕ
deriving Repr, DecidableEq

/-- Modelled from the spec: a per-channel subtractor-output analyzer,
recorded by the interface events the core sends it. -/
structure SubtractorOutputAnalyzerM where
  path_changes : ℕ
  updates : ℕ
deriving Repr, DecidableEq

/-- Modelled from the spec: the ERLE estimator, recorded by its interface
events; each reset is logged with its hardness flag, newest first. -/
structure ErleM where
  resets : List Bool
  updates : ℕ
deriving Repr, DecidableEq

/-- Modelled from the spec: the ERL estimator, recorded by its interface
events. -/
structure ErlM where
  resets : ℕ
  updates : ℕ
deriving Repr, DecidableEq

/-- Modelled from the spec: the delay-adjustment kind of an
EchoPathVariability event; only whether it is kNone matters to the core. -/
inductive DelayAdjustment where
  | kNone
  | kBufferFlush
  | kNewDetectedDelay
deriving Repr, DecidableEq

/-- Modelled from the spec: an echo-path-variability report. -/
structure EchoPathVariability where
  gain_change : Bool
  delay_change : DelayAdjustment
deriving Repr, DecidableEq

/-- The aggregate state of AecState: the two render counters, the sticky
capture-saturation flag, the five sub-trackers, and the event records of
the owned external collaborators. -/
structure AecStateM where
  capture_signal_saturation : Bool
  blocks_with_active_render : ℕ
  strong_not_saturated_render_blocks : ℕ
  initial_state : InitialState
  delay_state : FilterDelay
  transparent_state : TransparentMode
  filter_quality_state : FilteringQualityAnalyzer
  saturated_echo : Bool
  erle_estimator : ErleM
  erl_estimator : ErlM
  filter_analyzers : List FilterAnalyzerM
  subtractor_output_analyzers : List SubtractorOutputAnalyzerM
  echo_audibility : ℕ
  reverb_model : ReverbModel
  reverb_model_estimator : ℕ

/-- AecState::HandleEchoPathChange from aec_state.cc: a delay-changing
variability triggers the full reset, a gain-only change triggers a soft
ERLE reset, and every subtractor-output analyzer is notified in all cases. -/
def AecState.handleEchoPathChange (cfg : Config) (s : AecStateM)
    (echo_path_variability : EchoPathVariability) : AecStateM :=
  let s1 :=
    if echo_path_variability.delay_change ≠ DelayAdjustment.kNone then
      { s with
        filter_analyzers := s.filter_analyzers.map (fun a => { a with resets := a.resets + 1 })
        capture_signal_saturation := false
        strong_not_saturated_render_blocks := 0
        blocks_with_active_render := 0
        initial_state := s.initial_state.reset
        transparent_state := TransparentMode.reset cfg s.transparent_state
        erle_estimator := { s.erle_estimator with resets := true :: s.erle_estimator.resets }
        erl_estimator := { s.erl_estimator with resets := s.erl_estimator.resets + 1 }
        filter_quality_state := s.filter_quality_state.reset }
    else if echo_path_variability.gain_change then
      { s with erle_estimator := { s.erle_estimator with resets := false :: s.erle_estimator.resets } }
    else s
  { s1 with
    subtractor_output_analyzers :=
      s1.subtractor_output_analyzers.map (fun a => { a with path_changes := a.path_changes + 1 }) }

/-- The per-block inputs of AecState::Update.  The quantities computed by
the out-of-scope collaborators are supplied directly: the per-channel
converged, diverged and consistent flags, gains and delay estimates come
from the analyzers after their own update, the render block is the one the
ring buffer yields at the aligned delay, and the decay comes from the
reverb-model estimator. -/
structure BlockInput where
  external_delay : Option ℕ
  converged : List Bool
  diverged : List Bool
  consistent : List Bool
  gains : List ℚ
  delay_blocks : List ℕ
  render_block : List (List ℚ)
  subtractor_output : List SubtractorOutput
  spectrum_buffer : SpectrumBuffer
  reverb_decay : ℚ

/-- The active-render test of AecState::Update: some render channel has
block energy above the configured limit. -/
def activeRender (cfg : Config) (block : List (List ℚ)) : Bool :=
  block.any (fun ch =>
    decide (cfg.active_render_limit * cfg.active_render_limit * cfg.fftLengthBy2 <
      ch.foldl (fun a v => a + v * v) 0))

/-- AecState::Update from aec_state.cc, with the collaborator computations
abstracted into the block input, in the exact order of the source: filter
delay, render counters, reverb, audibility, the ERLE reset on the startup
transition of the previous block, ERLE and ERL updates, saturation
detection, InitialState, TransparentMode, FilteringQualityAnalyzer and the
reverb-model estimator. -/
def AecState.update (cfg : Config) (s : AecStateM) (inp : BlockInput) : AecStateM :=
  let any_filter_converged := inp.converged.any id
  let all_filters_diverged := inp.diverged.all id
  let any_filter_consistent := inp.consistent.any id
  let max_echo_path_gain := inp.gains.foldl max 0
  let subtractor_output_analyzers :=
    s.subtractor_output_analyzers.map (fun a => { a with updates := a.updates + 1 })
  let filter_analyzers :=
    s.filter_analyzers.map (fun a => { a with updates := a.updates + 1 })
  let delay_state :=
    if cfg.use_linear_filter then
      FilterDelay.update cfg s.delay_state inp.delay_blocks inp.external_delay
        s.strong_not_saturated_render_blocks
    else s.delay_state
  let active_render := activeRender cfg inp.render_block
  let blocks_with_active_render :=
    s.blocks_with_active_render + (if active_render then 1 else 0)
  let strong_not_saturated_render_blocks :=
    s.strong_not_saturated_render_blocks +
      (if active_render && !s.capture_signal_saturation then 1 else 0)
  let reverb_out := UpdateAndComputeReverb inp.spectrum_buffer
      delay_state.filter_delay_blocks inp.reverb_decay s.reverb_model
  let echo_audibility :=
    if cfg.use_stationarity_properties then s.echo_audibility + 1 else s.echo_audibility
  let erle0 :=
    if s.initial_state.transition_triggered then
      { s.erle_estimator with resets := false :: s.erle_estimator.resets }
    else s.erle_estimator
  let erle_estimator := { erle0 with updates := erle0.updates + 1 }
  let erl_estimator := { s.erl_estimator with updates := s.erl_estimator.updates + 1 }
  let saturated_echo :=
    SaturationDetector.update inp.render_block s.capture_signal_saturation
      s.filter_quality_state.usable_linear_estimate inp.subtractor_output
      max_echo_path_gain
  let initial_state :=
    InitialState.update cfg s.initial_state active_render s.capture_signal_saturation
  let transparent_state :=
    TransparentMode.update cfg s.transparent_state delay_state.filter_delay_blocks
      any_filter_consistent any_filter_converged all_filters_diverged
      active_render s.capture_signal_saturation
  let filter_quality_state :=
    FilteringQualityAnalyzer.update cfg s.filter_quality_state active_render
      transparent_state.transparency_activated s.capture_signal_saturation
      inp.external_delay any_filter_converged
  let reverb_model_estimator := s.reverb_model_estimator + 1
  { capture_signal_saturation := s.capture_signal_saturation
    blocks_with_active_render
    strong_not_saturated_render_blocks
    initial_state
    delay_state
    transparent_state
    filter_quality_state
    saturated_echo
    erle_estimator
    erl_estimator
    filter_analyzers
    subtractor_output_analyzers
    echo_audibility
    reverb_model := reverb_out.1
    reverb_model_estimator }

/-- An external event delivered to AecState: one block update, or one
echo-path-change report. -/
inductive AecEvent where
  | update (inp : BlockInput)
  | pathChange (v : EchoPathVariability)

/-- Whether an event is a delay-changing echo-path report, the only kind
that triggers the full reset. -/
def AecEvent.delayChanging : AecEvent → Bool
  | .update _ => false
  | .pathChange v => decide (v.delay_change ≠ DelayAdjustment.kNone)

/-- Apply one event to the state. -/
def AecState.step (cfg : Config) (s : AecStateM) : AecEvent → AecStateM
  | .update inp => AecState.update cfg s inp
  | .pathChange v => AecState.handleEchoPathChange cfg s v

/-- Apply a sequence of events to the state. -/
def AecState.runEvents (cfg : Config) (s : AecStateM) (evs : List AecEvent) : AecStateM :=
  evs.foldl (AecState.step cfg) s

/-- C1: every TransparentMode::Update computes transparency_activated by
the priority chain: false under the bounded-ERL flag, else false when
finite ERL was recently detected, else false when a sane filter was
recently seen together with recent convergence during activity, and
otherwise true exactly when the strong-not-saturated render counter
exceeds six seconds worth of blocks; in particular, with the bounded-ERL
flag set, transparency_activated is false after every update, for every
state and every input. -/
theorem transparentMode_update_decision (cfg : Config) (s : TransparentMode)
    (filter_delay_blocks : ℕ)
    (any_filter_consistent any_filter_converged all_filters_diverged
     active_render saturated_capture : Bool) :
    ((TransparentMode.update cfg s filter_delay_blocks any_filter_consistent
        any_filter_converged all_filters_diverged active_render
        saturated_capture).transparency_activated =
      (if cfg.bounded_erl then false
       else if (TransparentMode.update cfg s filter_delay_blocks any_filter_consistent
          any_filter_converged all_filters_diverged active_render
          saturated_capture).finite_erl_recently_detected then false
       else if saneFilterRecentlySeen cfg (TransparentMode.update cfg s
            filter_delay_blocks any_filter_consistent any_filter_converged
            all_filters_diverged active_render saturated_capture) &&
          (TransparentMode.update cfg s filter_delay_blocks any_filter_consistent
            any_filter_converged all_filters_diverged active_render
            saturated_capture).recent_convergence_during_activity then false
       else decide (6 * cfg.numBlocksPerSecond <
          (TransparentMode.update cfg s filter_delay_blocks any_filter_consistent
            any_filter_converged all_filters_diverged active_render
            saturated_capture).strong_not_saturated_render_blocks))) ∧
    (TransparentMode.update { cfg with bounded_erl := true } s filter_delay_blocks
        any_filter_consistent any_filter_converged all_filters_diverged
        active_render saturated_capture).transparency_activated = false :=
  ⟨rfl, rfl⟩

/-- C2: every SaturationDetector::Update yields false when capture is not
saturated; with saturated capture and a usable linear estimate it is true
exactly when some channel has a main- or shadow-filter residual peak above
20000; with saturated capture and no usable linear estimate it is true
exactly when the maximum absolute render sample times the echo path gain
times ten exceeds 32000. -/
theorem saturationDetector_update_spec (x : List (List ℚ))
    (saturated_capture usable_linear_estimate : Bool)
    (subtractor_output : List SubtractorOutput) (echo_path_gain : ℚ) :
    (saturated_capture = false →
      SaturationDetector.update x saturated_capture usable_linear_estimate
        subtractor_output echo_path_gain = false) ∧
    (saturated_capture = true → usable_linear_estimate = true →
      (SaturationDetector.update x saturated_capture usable_linear_estimate
          subtractor_output echo_path_gain = true ↔
        ∃ o ∈ subtractor_output,
          20000 < o.s_main_max_abs ∨ 20000 < o.s_shadow_max_abs)) ∧
    (saturated_capture = true → usable_linear_estimate = false →
      (SaturationDetector.update x saturated_capture usable_linear_estimate
          subtractor_output echo_path_gain = true ↔
        32000 < maxAbsRenderSample x * echo_path_gain * 10)) := by
  refine ⟨fun hs => ?_, fun hs hu => ?_, fun hs hu => ?_⟩ <;> subst hs
  · simp [SaturationDetector.update]
  · subst hu
    simp [SaturationDetector.update, List.any_eq_true]
  · subst hu
    simp [SaturationDetector.update]

/-- Concrete check for C2: with saturated capture, no usable linear
estimate and unit echo path gain, a render sample of amplitude 4000 flags
saturated echo and one of amplitude 3000 does not. -/
theorem saturationDetector_update_spec_witness :
    SaturationDetector.update [[(4000 : ℚ)]] true false [] 1 = true ∧
    SaturationDetector.update [[(3000 : ℚ)]] true false [] 1 = false := by
  constructor
  · exact ((saturationDetector_update_spec [[(4000 : ℚ)]] true false [] 1).2.2
      rfl rfl).mpr (by norm_num [maxAbsRenderSample])
  · have h := (saturationDetector_update_spec [[(3000 : ℚ)]] true false [] 1).2.2 rfl rfl
    cases hb : SaturationDetector.update [[(3000 : ℚ)]] true false [] 1
    · rfl
    · exact absurd (h.mp hb) (by norm_num [maxAbsRenderSample])

/-- A concrete configuration used by the concrete checks below. -/
def cfgEx : Config :=
  { numBlocksPerSecond := 250
    blockSize := 64
    fftLengthBy2 := 64
    conservative_initial_phase := false
    initial_state_seconds := 5 / 2
    use_linear_filter := true
    delay_headroom_samples := 320
    bounded_erl := false
    linear_and_stable_echo_path := false
    use_stationarity_properties := false
    active_render_limit := 100 }

/-- A concrete TransparentMode state used by the concrete checks below. -/
def tmEx : TransparentMode :=
  { capture_block_counter := 7
    strong_not_saturated_render_blocks := 4
    sane_filter_observed := true
    active_blocks_since_sane_filter := 3
    non_converged_sequence_size := 2
    diverged_sequence_size := 5
    active_non_converged_sequence_size := 6
    num_converged_blocks := 8
    recent_convergence_during_activity := true
    finite_erl_recently_detected := true
    transparency_activated := true }

/-- C7 counterexample: TransparentMode::Reset leaves
active_blocks_since_sane_filter untouched, so after a reset of a state
where it is 3 it is still 3 and not the 10000 sentinel the claim asserts. -/
theorem transparentMode_reset_c7_cex :
    (TransparentMode.reset cfgEx tmEx).active_blocks_since_sane_filter = 3 ∧
    (TransparentMode.reset cfgEx tmEx).active_blocks_since_sane_filter ≠
      kBlocksSinceConsistentEstimateInit := by
  constructor
  · rfl
  · decide

/-- C7 as amended: TransparentMode::Reset reinitializes the
non_converged_sequence_size sentinel to the 10000 never value, zeros the
divergence counter and the activity counter, clears
recent_convergence_during_activity exactly when the linear-and-stable
echo-path flag is set, and leaves every other field, including
active_blocks_since_sane_filter, unchanged. -/
theorem transparentMode_reset_frame (cfg : Config) (s : TransparentMode) :
    (TransparentMode.reset cfg s).non_converged_sequence_size =
      kBlocksSinceConvergencedFilterInit ∧
    (TransparentMode.reset cfg s).diverged_sequence_size = 0 ∧
    (TransparentMode.reset cfg s).strong_not_saturated_render_blocks = 0 ∧
    (TransparentMode.reset cfg s).recent_convergence_during_activity =
      (if cfg.linear_and_stable_echo_path then false
       else s.recent_convergence_during_activity) ∧
    (TransparentMode.reset cfg s).capture_block_counter = s.capture_block_counter ∧
    (TransparentMode.reset cfg s).sane_filter_observed = s.sane_filter_observed ∧
    (TransparentMode.reset cfg s).active_blocks_since_sane_filter =
      s.active_blocks_since_sane_filter ∧
    (TransparentMode.reset cfg s).active_non_converged_sequence_size =
      s.active_non_converged_sequence_size ∧
    (TransparentMode.reset cfg s).num_converged_blocks = s.num_converged_blocks ∧
    (TransparentMode.reset cfg s).finite_erl_recently_detected =
      s.finite_erl_recently_detected ∧
    (TransparentMode.reset cfg s).transparency_activated = s.transparency_activated :=
  ⟨rfl, rfl, rfl, rfl, rfl, rfl, rfl, rfl, rfl, rfl, rfl⟩

/-- C10: HandleEchoPathChange never touches the FilterDelay sub-tracker:
the latched external delay, the sticky reported flag and the current
filter delay estimate all survive every variability report, including the
delay-changing full reset. -/
theorem handleEchoPathChange_preserves_delay_state (cfg : Config) (s : AecStateM)
    (v : EchoPathVariability) :
    (AecState.handleEchoPathChange cfg s v).delay_state = s.delay_state := by
  unfold AecState.handleEchoPathChange
  dsimp only
  split
  · rfl
  · split <;> rfl

/-- The running minimum of a fold is below its seed and below every list
element. -/
lemma foldlMin_le : ∀ (t : List ℕ) (a : ℕ),
    List.foldl Nat.min a t ≤ a ∧ ∀ d ∈ t, List.foldl Nat.min a t ≤ d := by
  intro t
  induction t with
  | nil => exact fun a => ⟨Nat.le_refl a, by simp⟩
  | cons b t ih =>
    intro a
    simp only [List.foldl_cons]
    refine ⟨Nat.le_trans (ih (Nat.min a b)).1 (Nat.min_le_left a b), ?_⟩
    intro d hd
    rcases List.mem_cons.mp hd with rfl | hd
    · exact Nat.le_trans (ih (Nat.min a d)).1 (Nat.min_le_right a d)
    · exact (ih (Nat.min a b)).2 d hd

/-- The running minimum of a fold is its seed or one of the list elements. -/
lemma foldlMin_mem : ∀ (t : List ℕ) (a : ℕ),
    List.foldl Nat.min a t = a ∨ List.foldl Nat.min a t ∈ t := by
  intro t
  induction t with
  | nil => exact fun a => Or.inl rfl
  | cons b t ih =>
    intro a
    simp only [List.foldl_cons]
    rcases ih (Nat.min a b) with h | h
    · rw [h]
      rcases Nat.le_total a b with hab | hba
      · exact Or.inl (Nat.min_eq_left hab)
      · refine Or.inr ?_
        have hmin : Nat.min a b = b := Nat.min_eq_right hba
        rw [hmin]
        exact List.mem_cons_self b t
    · exact Or.inr (List.mem_cons_of_mem b h)

/-- C3: every FilterDelay::Update with at least one filter analyzer sets
filter_delay_blocks to the headroom-derived coarse value whenever fewer
than two seconds worth of proper-adaptation blocks have elapsed and an
external delay has been latched now or earlier, regardless of the
per-channel delays; otherwise it sets it to the minimum of the per-channel
analyzer delays. -/
theorem filterDelay_update_spec (cfg : Config) (s : FilterDelay)
    (delay_blocks_per_channel : List ℕ) (external_delay : Option ℕ)
    (blocks_with_proper_filter_adaptation : ℕ)
    (h : delay_blocks_per_channel ≠ []) :
    (blocks_with_proper_filter_adaptation < 2 * cfg.numBlocksPerSecond ∧
        (external_delay.isSome = true ∨ s.external_delay.isSome = true) →
      (FilterDelay.update cfg s delay_blocks_per_channel external_delay
          blocks_with_proper_filter_adaptation).filter_delay_blocks =
        cfg.delay_headroom_samples / cfg.blockSize) ∧
    (¬(blocks_with_proper_filter_adaptation < 2 * cfg.numBlocksPerSecond ∧
        (external_delay.isSome = true ∨ s.external_delay.isSome = true)) →
      (FilterDelay.update cfg s delay_blocks_per_channel external_delay
          blocks_with_proper_filter_adaptation).filter_delay_blocks ∈
          delay_blocks_per_channel ∧
        ∀ d ∈ delay_blocks_per_channel,
          (FilterDelay.update cfg s delay_blocks_per_channel external_delay
            blocks_with_proper_filter_adaptation).filter_delay_blocks ≤ d) := by
  cases delay_blocks_per_channel with
  | nil => exact absurd rfl h
  | cons a t =>
    have hmem := foldlMin_mem t a
    have hle := foldlMin_le t a
    constructor
    · rintro ⟨hb, hext⟩
      rcases hx : external_delay with _ | d
      · subst hx
        rcases hext with hx | hx
        · simp at hx
        · simp only [FilterDelay.update]
          simp [hb, hx]
      · subst hx
        rcases hy : s.external_delay with _ | e
        · simp only [FilterDelay.update]
          simp [hb, hy]
        · simp only [FilterDelay.update]
          rcases eq_or_ne d e with rfl | hde
          · simp [hb, hy]
          · simp [hb, hy, hde]
    · intro hcond
      have hb' : ¬(blocks_with_proper_filter_adaptation < 2 * cfg.numBlocksPerSecond) ∨
          (external_delay.isSome = false ∧ s.external_delay.isSome = false) := by
        by_cases hb : blocks_with_proper_filter_adaptation < 2 * cfg.numBlocksPerSecond
        · right
          constructor
          · cases hx : external_delay.isSome
            · rfl
            · exact absurd ⟨hb, Or.inl hx⟩ hcond
          · cases hx : s.external_delay.isSome
            · rfl
            · exact absurd ⟨hb, Or.inr hx⟩ hcond
        · exact Or.inl hb
      have hgoal :
          (FilterDelay.update cfg s (a :: t) external_delay
            blocks_with_proper_filter_adaptation).filter_delay_blocks =
            List.foldl Nat.min a t := by
        rcases hb' with hb | ⟨hex, hse⟩
        · simp only [FilterDelay.update]
          rcases hx : external_delay with _ | d
          · simp [hb]
          · rcases hy : s.external_delay with _ | e
            · simp [hb]
            · rcases eq_or_ne d e with rfl | hde
              · simp [hb, hy]
              · simp [hb, hy, hde]
        · rcases hx : external_delay with _ | d
          · rcases hy : s.external_delay with _ | e
            · simp only [FilterDelay.update]
              simp [hy]
            · rw [hy] at hse
              simp at hse
          · rw [hx] at hex
            simp at hex
      rw [hgoal]
      constructor
      · rcases hmem with hm | hm
        · rw [hm]
          exact List.mem_cons_self a t
        · exact List.mem_cons_of_mem a hm
      · intro d hd
        rcases List.mem_cons.mp hd with rfl | hd
        · exact hle.1
        · exact hle.2 d hd

/-- A concrete FilterDelay state used by the concrete checks below. -/
def fdEx : FilterDelay :=
  { external_delay := none, external_delay_reported := false, filter_delay_blocks := 0 }

/-- Concrete check for C3: with a fresh delay tracker, an arriving
external delay and no adaptation time, the coarse headroom-derived value
wins over the analyzer delays. -/
theorem filterDelay_update_spec_witness :
    ([3, 2] : List ℕ) ≠ [] ∧
    (0 < 2 * cfgEx.numBlocksPerSecond ∧
      ((some 7 : Option ℕ).isSome = true ∨ fdEx.external_delay.isSome = true)) ∧
    (FilterDelay.update cfgEx fdEx [3, 2] (some 7) 0).filter_delay_blocks =
      cfgEx.delay_headroom_samples / cfgEx.blockSize :=
  ⟨by decide, ⟨by decide, Or.inl rfl⟩,
    (filterDelay_update_spec cfgEx fdEx [3, 2] (some 7) 0 (by decide)).1
      ⟨by decide, Or.inl rfl⟩⟩

/-- C4 counterexample: the claim requires usable_linear_estimate to be
true once at least 0.4 seconds worth of filter-update blocks have been
counted with convergence seen, an external delay present and transparent
mode inactive; after exactly 100 such blocks at 250 blocks per second all
those conditions hold, yet the code, which demands strictly more than
0.4 seconds worth, still reports false. -/
theorem filteringQuality_c4_cex :
    ((cfgEx.numBlocksPerSecond : ℚ) * 0.4 ≤
        ((FilteringQualityAnalyzer.update cfgEx ⟨false, 99, 99, false⟩ true false false
          (some 7) true).filter_update_blocks_since_start : ℚ) ∧
      (cfgEx.numBlocksPerSecond : ℚ) * 0.2 ≤
        ((FilteringQualityAnalyzer.update cfgEx ⟨false, 99, 99, false⟩ true false false
          (some 7) true).filter_update_blocks_since_reset : ℚ) ∧
      ((some 7 : Option ℕ).isSome = true ∨
        (FilteringQualityAnalyzer.update cfgEx ⟨false, 99, 99, false⟩ true false false
          (some 7) true).convergence_seen = true) ∧
      (false : Bool) = false) ∧
    (FilteringQualityAnalyzer.update cfgEx ⟨false, 99, 99, false⟩ true false false
      (some 7) true).usable_linear_estimate = false := by
  refine ⟨⟨?_, ?_, Or.inl rfl, rfl⟩, ?_⟩ <;>
    norm_num [FilteringQualityAnalyzer.update, cfgEx]

/-- C4 as amended: after every FilteringQualityAnalyzer::Update,
usable_linear_estimate is true exactly when strictly more than 0.4 seconds
worth of filter-update blocks have been counted since start, strictly more
than 0.2 seconds worth since the last reset, an external delay is known or
convergence has been seen, and transparent mode is inactive; in
particular it is false whenever fewer blocks than 0.4 seconds worth have
been counted since start. -/
theorem filteringQuality_update_spec (cfg : Config) (s : FilteringQualityAnalyzer)
    (active_render transparent_mode saturated_capture : Bool)
    (external_delay : Option ℕ) (any_filter_converged : Bool) :
    ((FilteringQualityAnalyzer.update cfg s active_render transparent_mode
        saturated_capture external_delay any_filter_converged).usable_linear_estimate =
          true ↔
      ((cfg.numBlocksPerSecond : ℚ) * 0.4 <
        ((FilteringQualityAnalyzer.update cfg s active_render transparent_mode
          saturated_capture external_delay
          any_filter_converged).filter_update_blocks_since_start : ℚ) ∧
       (cfg.numBlocksPerSecond : ℚ) * 0.2 <
        ((FilteringQualityAnalyzer.update cfg s active_render transparent_mode
          saturated_capture external_delay
          any_filter_converged).filter_update_blocks_since_reset : ℚ) ∧
       (external_delay.isSome = true ∨
        (FilteringQualityAnalyzer.update cfg s active_render transparent_mode
          saturated_capture external_delay any_filter_converged).convergence_seen =
            true) ∧
       transparent_mode = false)) ∧
    (((FilteringQualityAnalyzer.update cfg s active_render transparent_mode
        saturated_capture external_delay
        any_filter_converged).filter_update_blocks_since_start : ℚ) ≤
          (cfg.numBlocksPerSecond : ℚ) * 0.4 →
      (FilteringQualityAnalyzer.update cfg s active_render transparent_mode
        saturated_capture external_delay any_filter_converged).usable_linear_estimate =
          false) := by
  have hiff :
      (FilteringQualityAnalyzer.update cfg s active_render transparent_mode
          saturated_capture external_delay any_filter_converged).usable_linear_estimate =
            true ↔
        ((cfg.numBlocksPerSecond : ℚ) * 0.4 <
          ((FilteringQualityAnalyzer.update cfg s active_render transparent_mode
            saturated_capture external_delay
            any_filter_converged).filter_update_blocks_since_start : ℚ) ∧
         (cfg.numBlocksPerSecond : ℚ) * 0.2 <
          ((FilteringQualityAnalyzer.update cfg s active_render transparent_mode
            saturated_capture external_delay
            any_filter_converged).filter_update_blocks_since_reset : ℚ) ∧
         (external_delay.isSome = true ∨
          (FilteringQualityAnalyzer.update cfg s active_render transparent_mode
            saturated_capture external_delay any_filter_converged).convergence_seen =
              true) ∧
         transparent_mode = false) := by
    simp only [FilteringQualityAnalyzer.update]
    simp only [Bool.and_eq_true, Bool.or_eq_true, decide_eq_true_eq, Bool.not_eq_true']
    tauto
  refine ⟨hiff, fun hle => ?_⟩
  cases hu : (FilteringQualityAnalyzer.update cfg s active_render transparent_mode
      saturated_capture external_delay any_filter_converged).usable_linear_estimate
  · rfl
  · rcases hiff.mp hu with ⟨h1, _⟩
    exact absurd h1 (not_lt.mpr hle)

/-- Concrete check for the amended C4: with no filter-update blocks yet,
the linear estimate is not usable. -/
theorem filteringQuality_update_spec_witness :
    (((FilteringQualityAnalyzer.update cfgEx ⟨false, 0, 0, false⟩ false false false
        (some 7) true).filter_update_blocks_since_start : ℚ) ≤
      (cfgEx.numBlocksPerSecond : ℚ) * 0.4) ∧
    (FilteringQualityAnalyzer.update cfgEx ⟨false, 0, 0, false⟩ false false false
      (some 7) true).usable_linear_estimate = false :=
  ⟨by norm_num [FilteringQualityAnalyzer.update, cfgEx],
    (filteringQuality_update_spec cfgEx ⟨false, 0, 0, false⟩ false false false
      (some 7) true).2 (by norm_num [FilteringQualityAnalyzer.update, cfgEx])⟩

/-- The filter-update count of a block list splits off its head. -/
lemma filterUpdateCount_cons (p : Bool × Bool) (l : List (Bool × Bool)) :
    filterUpdateCount (p :: l) =
      (if p.1 && !p.2 then 1 else 0) + filterUpdateCount l := by
  simp only [filterUpdateCount, List.filter_cons]
  split
  · simp [Nat.add_comm]
  · simp

/-- Running InitialState over a block list adds the filter-update count of
the list to the counter. -/
lemma initialState_run_strong (cfg : Config) :
    ∀ (l : List (Bool × Bool)) (s : InitialState),
      (InitialState.run cfg s l).strong_not_saturated_render_blocks =
        s.strong_not_saturated_render_blocks + filterUpdateCount l := by
  intro l
  induction l with
  | nil =>
    intro s
    simp [InitialState.run, filterUpdateCount]
  | cons p l ih =>
    intro s
    simp only [InitialState.run, List.foldl_cons] at ih ⊢
    rw [ih, filterUpdateCount_cons]
    simp only [InitialState.update]
    omega

/-- After any InitialState update the active flag equals the comparison of
the updated counter against the startup threshold. -/
lemma initialState_update_initial (cfg : Config) (s : InitialState) (a b : Bool) :
    (InitialState.update cfg s a b).initial_state =
      decide (((InitialState.update cfg s a b).strong_not_saturated_render_blocks : ℚ) <
        InitialState.threshold cfg) := by
  simp only [InitialState.update, InitialState.threshold]
  by_cases hc : cfg.conservative_initial_phase = true
  · simp only [hc, if_true]
    rw [decide_eq_decide]
    exact (Nat.cast_lt (α := ℚ)).symm
  · simp only [Bool.not_eq_true] at hc
    simp [hc]

/-- After any nonempty run the active flag equals the comparison of the
counter against the startup threshold. -/
lemma initialState_run_initial (cfg : Config) (s : InitialState)
    (l : List (Bool × Bool)) (h : l ≠ []) :
    (InitialState.run cfg s l).initial_state =
      decide (((InitialState.run cfg s l).strong_not_saturated_render_blocks : ℚ) <
        InitialState.threshold cfg) := by
  rcases (List.eq_nil_or_concat l).resolve_left h with ⟨xs, p, rfl⟩
  simp only [List.concat_eq_append, InitialState.run, List.foldl_append,
    List.foldl_cons, List.foldl_nil]
  exact initialState_update_initial cfg _ p.1 p.2

/-- C5: starting from a Reset, after any nonempty sequence of
InitialState updates the counter equals the number of blocks with active
render and unsaturated capture, the active flag holds exactly while that
count is below the threshold, and the transition flag holds exactly on the
first update at or above the threshold: the count has reached the
threshold and either this is the very first update or the count before
this update was still below it. -/
theorem initialState_run_spec (cfg : Config) (s0 : InitialState)
    (l : List (Bool × Bool)) (h : l ≠ []) :
    (InitialState.run cfg s0.reset l).strong_not_saturated_render_blocks =
      filterUpdateCount l ∧
    ((InitialState.run cfg s0.reset l).initial_state = true ↔
      (filterUpdateCount l : ℚ) < InitialState.threshold cfg) ∧
    ((InitialState.run cfg s0.reset l).transition_triggered = true ↔
      (InitialState.threshold cfg ≤ (filterUpdateCount l : ℚ) ∧
        (l.dropLast = [] ∨
          (filterUpdateCount l.dropLast : ℚ) < InitialState.threshold cfg))) := by
  have hreset : (s0.reset).strong_not_saturated_render_blocks = 0 := rfl
  have hstrong : (InitialState.run cfg s0.reset l).strong_not_saturated_render_blocks =
      filterUpdateCount l := by
    rw [initialState_run_strong, hreset, Nat.zero_add]
  have hinit : (InitialState.run cfg s0.reset l).initial_state =
      decide ((filterUpdateCount l : ℚ) < InitialState.threshold cfg) := by
    rw [initialState_run_initial cfg _ l h, hstrong]
  refine ⟨hstrong, by rw [hinit]; simp, ?_⟩
  rcases (List.eq_nil_or_concat l).resolve_left h with ⟨xs, p, rfl⟩
  simp only [List.concat_eq_append] at hstrong hinit ⊢
  have hdrop : (xs ++ [p]).dropLast = xs := List.dropLast_concat
  have htrans : (InitialState.run cfg s0.reset (xs ++ [p])).transition_triggered =
      (!(InitialState.run cfg s0.reset (xs ++ [p])).initial_state &&
        (InitialState.run cfg s0.reset xs).initial_state) := by
    simp only [InitialState.run, List.foldl_append, List.foldl_cons, List.foldl_nil]
    rfl
  rw [htrans, hinit, hdrop]
  rcases List.eq_nil_or_concat xs with rfl | ⟨ys, q, rfl⟩
  · have hxs : (InitialState.run cfg s0.reset []).initial_state = true := rfl
    rw [hxs]
    simp [not_lt]
  · simp only [List.concat_eq_append] at htrans ⊢
    have hxsne : ys ++ [q] ≠ [] := by simp
    have hxsinit : (InitialState.run cfg s0.reset (ys ++ [q])).initial_state =
        decide ((filterUpdateCount (ys ++ [q]) : ℚ) < InitialState.threshold cfg) := by
      rw [initialState_run_initial cfg _ _ hxsne, initialState_run_strong, hreset,
        Nat.zero_add]
    rw [hxsinit]
    simp [not_lt, hxsne]

/-- A concrete InitialState used by the concrete checks below. -/
def isEx : InitialState :=
  { initial_state := false
    strong_not_saturated_render_blocks := 17
    transition_triggered := true }

/-- Concrete check for C5 at a one-block sequence. -/
theorem initialState_run_spec_witness :
    ([((true : Bool), (false : Bool))] : List (Bool × Bool)) ≠ [] ∧
    ((InitialState.run cfgEx isEx.reset
        [((true : Bool), (false : Bool))]).strong_not_saturated_render_blocks =
      filterUpdateCount [((true : Bool), (false : Bool))] ∧
    ((InitialState.run cfgEx isEx.reset
        [((true : Bool), (false : Bool))]).initial_state = true ↔
      (filterUpdateCount [((true : Bool), (false : Bool))] : ℚ) <
        InitialState.threshold cfgEx) ∧
    ((InitialState.run cfgEx isEx.reset
        [((true : Bool), (false : Bool))]).transition_triggered = true ↔
      (InitialState.threshold cfgEx ≤
          (filterUpdateCount [((true : Bool), (false : Bool))] : ℚ) ∧
        (([((true : Bool), (false : Bool))] :
            List (Bool × Bool)).dropLast = [] ∨
          (filterUpdateCount
              ([((true : Bool), (false : Bool))] :
                List (Bool × Bool)).dropLast : ℚ) <
            InitialState.threshold cfgEx)))) :=
  ⟨by decide, initialState_run_spec cfgEx isEx [((true : Bool), (false : Bool))]
    (by decide)⟩

/-- C6: HandleEchoPathChange performs the full reset exactly on a
delay-changing variability: filter analyzers reset, capture saturation
cleared, both render counters zeroed, InitialState, TransparentMode and
FilteringQualityAnalyzer reset, ERLE hard-reset and ERL reset; a gain-only
change performs only a soft ERLE reset; and in every case each
subtractor-output analyzer is notified of the path change. -/
theorem handleEchoPathChange_spec (cfg : Config) (s : AecStateM)
    (v : EchoPathVariability) :
    (v.delay_change ≠ DelayAdjustment.kNone →
      AecState.handleEchoPathChange cfg s v =
        { s with
          filter_analyzers :=
            s.filter_analyzers.map (fun a => { a with resets := a.resets + 1 })
          capture_signal_saturation := false
          strong_not_saturated_render_blocks := 0
          blocks_with_active_render := 0
          initial_state := s.initial_state.reset
          transparent_state := TransparentMode.reset cfg s.transparent_state
          erle_estimator :=
            { s.erle_estimator with resets := true :: s.erle_estimator.resets }
          erl_estimator :=
            { s.erl_estimator with resets := s.erl_estimator.resets + 1 }
          filter_quality_state := s.filter_quality_state.reset
          subtractor_output_analyzers :=
            s.subtractor_output_analyzers.map
              (fun a => { a with path_changes := a.path_changes + 1 }) }) ∧
    (v.delay_change = DelayAdjustment.kNone → v.gain_change = true →
      AecState.handleEchoPathChange cfg s v =
        { s with
          erle_estimator :=
            { s.erle_estimator with resets := false :: s.erle_estimator.resets }
          subtractor_output_analyzers :=
            s.subtractor_output_analyzers.map
              (fun a => { a with path_changes := a.path_changes + 1 }) }) ∧
    (v.delay_change = DelayAdjustment.kNone → v.gain_change = false →
      AecState.handleEchoPathChange cfg s v =
        { s with
          subtractor_output_analyzers :=
            s.subtractor_output_analyzers.map
              (fun a => { a with path_changes := a.path_changes + 1 }) }) := by
  refine ⟨fun hd => ?_, fun hd hg => ?_, fun hd hg => ?_⟩
  · simp [AecState.handleEchoPathChange, hd]
  · simp [AecState.handleEchoPathChange, hd, hg]
  · simp [AecState.handleEchoPathChange, hd, hg]

/-- A concrete aggregate state used by the concrete checks below. -/
def aecEx : AecStateM :=
  { capture_signal_saturation := true
    blocks_with_active_render := 11
    strong_not_saturated_render_blocks := 9
    initial_state := isEx
    delay_state := ⟨some 7, true, 4⟩
    transparent_state := tmEx
    filter_quality_state := ⟨true, 3, 5, true⟩
    saturated_echo := true
    erle_estimator := ⟨[false], 2⟩
    erl_estimator := ⟨1, 2⟩
    filter_analyzers := [⟨0, 2⟩]
    subtractor_output_analyzers := [⟨0, 2⟩]
    echo_audibility := 2
    reverb_model := ⟨fun _ => 0⟩
    reverb_model_estimator := 2 }

/-- Concrete check for C6 at a delay-changing variability. -/
theorem handleEchoPathChange_spec_witness :
    (EchoPathVariability.mk false DelayAdjustment.kNewDetectedDelay).delay_change ≠
      DelayAdjustment.kNone ∧
    ((AecState.handleEchoPathChange cfgEx aecEx
        (EchoPathVariability.mk false
          DelayAdjustment.kNewDetectedDelay)).strong_not_saturated_render_blocks = 0 ∧
      (AecState.handleEchoPathChange cfgEx aecEx
        (EchoPathVariability.mk false
          DelayAdjustment.kNewDetectedDelay)).initial_state.initial_state = true) := by
  have h := (handleEchoPathChange_spec cfgEx aecEx
    (EchoPathVariability.mk false DelayAdjustment.kNewDetectedDelay)).1 (by decide)
  refine ⟨by decide, ?_, ?_⟩
  · rw [h]
  · rw [h]
    rfl

/-- C9: the two render counters of AecState only grow during Update, each
by zero or one per block, the strong counter advancing exactly on blocks
that advance the active counter with unsaturated capture; a
non-delay-changing echo-path report leaves both unchanged, a
delay-changing one zeroes both, and over any event sequence with no
delay-changing report the counters are monotonically non-decreasing. -/
theorem aecState_counters_monotone (cfg : Config) :
    (∀ (s : AecStateM) (inp : BlockInput),
      (AecState.update cfg s inp).blocks_with_active_render =
        s.blocks_with_active_render +
          (if activeRender cfg inp.render_block then 1 else 0) ∧
      (AecState.update cfg s inp).strong_not_saturated_render_blocks =
        s.strong_not_saturated_render_blocks +
          (if activeRender cfg inp.render_block && !s.capture_signal_saturation
           then 1 else 0)) ∧
    (∀ (s : AecStateM) (v : EchoPathVariability),
      v.delay_change = DelayAdjustment.kNone →
      (AecState.handleEchoPathChange cfg s v).blocks_with_active_render =
        s.blocks_with_active_render ∧
      (AecState.handleEchoPathChange cfg s v).strong_not_saturated_render_blocks =
        s.strong_not_saturated_render_blocks) ∧
    (∀ (s : AecStateM) (v : EchoPathVariability),
      v.delay_change ≠ DelayAdjustment.kNone →
      (AecState.handleEchoPathChange cfg s v).blocks_with_active_render = 0 ∧
      (AecState.handleEchoPathChange cfg s v).strong_not_saturated_render_blocks = 0) ∧
    (∀ (s : AecStateM) (evs : List AecEvent),
      (∀ e ∈ evs, e.delayChanging = false) →
      s.blocks_with_active_render ≤
        (AecState.runEvents cfg s evs).blocks_with_active_render ∧
      s.strong_not_saturated_render_blocks ≤
        (AecState.runEvents cfg s evs).strong_not_saturated_render_blocks) := by
  refine ⟨fun s inp => ⟨rfl, rfl⟩, ?_, ?_, ?_⟩
  · intro s v hd
    cases hg : v.gain_change <;>
      simp [AecState.handleEchoPathChange, hd, hg]
  · intro s v hd
    simp [AecState.handleEchoPathChange, hd]
  · intro s evs
    induction evs generalizing s with
    | nil => exact fun _ => ⟨Nat.le_refl _, Nat.le_refl _⟩
    | cons e evs ih =>
      intro hall
      have he : e.delayChanging = false := hall e (List.mem_cons_self e evs)
      have hrest : ∀ x ∈ evs, x.delayChanging = false :=
        fun x hx => hall x (List.mem_cons_of_mem e hx)
      have hstep : s.blocks_with_active_render ≤
            (AecState.step cfg s e).blocks_with_active_render ∧
          s.strong_not_saturated_render_blocks ≤
            (AecState.step cfg s e).strong_not_saturated_render_blocks := by
        cases e with
        | update inp =>
          constructor <;> exact Nat.le_add_right _ _
        | pathChange v =>
          have hv : v.delay_change = DelayAdjustment.kNone := by
            simpa [AecEvent.delayChanging] using he
          cases hg : v.gain_change <;>
            simp [AecState.step, AecState.handleEchoPathChange, hv, hg]
      have htail := ih (AecState.step cfg s e) hrest
      simp only [AecState.runEvents, List.foldl_cons] at *
      exact ⟨Nat.le_trans hstep.1 htail.1, Nat.le_trans hstep.2 htail.2⟩

/-- Concrete check for C9 over a one-event sequence holding a gain-only
echo-path report. -/
theorem aecState_counters_monotone_witness :
    (∀ e ∈ [AecEvent.pathChange (EchoPathVariability.mk true DelayAdjustment.kNone)],
      e.delayChanging = false) ∧
    (aecEx.blocks_with_active_render ≤
      (AecState.runEvents cfgEx aecEx
        [AecEvent.pathChange (EchoPathVariability.mk true
          DelayAdjustment.kNone)]).blocks_with_active_render ∧
    aecEx.strong_not_saturated_render_blocks ≤
      (AecState.runEvents cfgEx aecEx
        [AecEvent.pathChange (EchoPathVariability.mk true
          DelayAdjustment.kNone)]).strong_not_saturated_render_blocks) := by
  have hall : ∀ e ∈ [AecEvent.pathChange (EchoPathVariability.mk true
      DelayAdjustment.kNone)], e.delayChanging = false := by
    intro e he
    rcases List.mem_singleton.mp he with rfl
    rfl
  exact ⟨hall, (aecState_counters_monotone cfgEx).2.2.2 aecEx _ hall⟩

/-- The channel loop of UpdateAndComputeReverb sums exactly the whole slot
when the channel count matches the slot length. -/
lemma sumChannels_eq_channelSum (slot : List (ℕ → ℚ)) :
    sumChannels slot.length slot = channelSum slot := by
  funext k
  simp [sumChannels, channelSum]

/-- C8: every reverb-power combination updates the tail model, with unit
scaling and no frequency shaping, from the channel-summed power of the
slot one block before the delayed slot, and returns per frequency bin the
channel-summed power of the delayed slot plus the reverberation power of
the tail model after that update. -/
theorem updateAndComputeReverb_spec (sb : SpectrumBuffer) (delay_blocks : ℕ)
    (reverb_decay : ℚ) (rm : ReverbModel)
    (h0 : 0 < (sb.buffer 0).length)
    (hpast : (sb.buffer (delay_blocks + 1)).length = (sb.buffer 0).length)
    (hat : (sb.buffer delay_blocks).length = (sb.buffer 0).length) :
    (UpdateAndComputeReverb sb delay_blocks reverb_decay rm).1 =
      rm.updateReverbNoFreqShaping (channelSum (sb.buffer (delay_blocks + 1)))
        1 reverb_decay ∧
    ∀ k, (UpdateAndComputeReverb sb delay_blocks reverb_decay rm).2 k =
      channelSum (sb.buffer delay_blocks) k +
        ((UpdateAndComputeReverb sb delay_blocks reverb_decay rm).1).reverb k := by
  have hsum : ∀ slot : List (ℕ → ℚ), slot.length = (sb.buffer 0).length →
      sumChannels (sb.buffer 0).length slot = channelSum slot := by
    intro slot hlen
    rw [← hlen]
    exact sumChannels_eq_channelSum slot
  by_cases hn : 1 < (sb.buffer 0).length
  · constructor
    · simp only [UpdateAndComputeReverb, if_pos hn]
      rw [hsum _ hpast]
    · intro k
      simp only [UpdateAndComputeReverb, if_pos hn]
      rw [hsum _ hat, hsum _ hpast]
  · have hn1 : (sb.buffer 0).length = 1 := by omega
    obtain ⟨c, hc⟩ := List.length_eq_one.mp (hpast.trans hn1)
    obtain ⟨c', hc'⟩ := List.length_eq_one.mp (hat.trans hn1)
    have hone : ∀ f : ℕ → ℚ, channelSum [f] = f := by
      intro f
      funext k
      simp [channelSum]
    constructor
    · simp only [UpdateAndComputeReverb, if_neg hn]
      rw [hc, hone]
      rfl
    · intro k
      simp only [UpdateAndComputeReverb, if_neg hn]
      rw [hc, hc', hone]
      rfl

/-- A concrete single-channel spectrum buffer used by the concrete checks
below. -/
def sbEx : SpectrumBuffer := ⟨fun _ => [fun _ => 0]⟩

/-- A concrete reverb model used by the concrete checks below. -/
def rmEx : ReverbModel := ⟨fun _ => 0⟩

/-- Concrete check for C8 on a single-channel buffer. -/
theorem updateAndComputeReverb_spec_witness :
    0 < (sbEx.buffer 0).length ∧
    (UpdateAndComputeReverb sbEx 0 0 rmEx).2 0 =
      channelSum (sbEx.buffer 0) 0 +
        ((UpdateAndComputeReverb sbEx 0 0 rmEx).1).reverb 0 :=
  ⟨by decide, (updateAndComputeReverb_spec sbEx 0 0 rmEx (by decide) rfl rfl).2 0⟩

end Aec3
